import Mathlib

/-!
Verification of the `aidar` pattern-based AI-text scoring engine against its
natural-language specification.

Shallow embedding conventions:
* Python `float` is modelled as `ℚ` (the source only ever combines finitely
  many rationals with `+ - * /`, `abs`, `round`, `max`, `min`; the single
  irrational operation, the square root inside `statistics.stdev`, is taken
  as an explicit function parameter `sqrtF`).
* Python `int` is modelled as `ℤ`, `str` as `String`, `None`-able values as
  `Option`.
* A Python function that can raise is modelled as returning
  `Except PyError _`; an exception class plus message becomes a `PyError`
  value.
* Dataclass field names follow `src/aidar/models/*.py` (the keyword field
  `structure` of `ScoreVector`/`WeightConfig` is rendered `structure_`).
-/

/-- The Python exceptions that the embedded code can raise. -/
inductive PyError where
  /-- `TypeError`, e.g. an unexpected keyword argument in a dataclass call. -/
  | typeError (msg : String)
  /-- `AttributeError`: attribute missing from an object. -/
  | attributeError (msg : String)
  /-- `ValueError` (also raised by dataclass `__post_init__` validation). -/
  | valueError (msg : String)
  /-- `KeyError` from a bare `dict[...]` access. -/
  | keyError (msg : String)
  /-- `aidar.patterns.loader.PatternLoadError` (the spec's ConfigError). -/
  | patternLoadError (msg : String)
deriving Repr, DecidableEq

/-! ## Python string / numeric primitives used by the detectors -/

/-- Python `round(x)` on an exact rational value: round half to even. -/
def pyRound (q : ℚ) : ℤ :=
  let f : ℤ := ⌊q⌋
  let r : ℚ := q - f
  if r < 1/2 then f
  else if r > 1/2 then f + 1
  else if f % 2 = 0 then f else f + 1

/-- Python `round(x, n)` on an exact rational value. -/
def pyRoundTo (n : ℕ) (q : ℚ) : ℚ :=
  (pyRound (q * (10 ^ n : ℕ))) / ((10 ^ n : ℕ) : ℚ)

/-- Python `f"{q:.Nf}"` fixed-point formatting of a rational (round half to
even, as for an exactly-representable value). -/
def fmtFixed (prec : ℕ) (q : ℚ) : String :=
  let scaled : ℤ := pyRound (q * (10 ^ prec : ℕ))
  let sign := if scaled < 0 then "-" else ""
  let n := scaled.natAbs
  let ip := n / 10 ^ prec
  let fp := n % 10 ^ prec
  if prec = 0 then sign ++ toString ip
  else
    let fs := toString fp
    let pad := String.mk (List.replicate (prec - fs.length) '0')
    sign ++ toString ip ++ "." ++ pad ++ fs

/-- Python `str.lower()` (ASCII case folding; every input exercised by the
claims is ASCII). -/
def pyLower (s : String) : String := String.mk (s.toList.map Char.toLower)

/-- Python whitespace test for `str.strip` / `str.split` / `\s`. -/
def pyIsSpace (c : Char) : Bool :=
  c = ' ' || c = '\t' || c = '\n' || c = '\r' || c = '\x0b' || c = '\x0c'

/-- Python `str.strip()` (no argument): drop whitespace from both ends. -/
def pyStrip (s : String) : String :=
  String.mk (((s.toList.dropWhile pyIsSpace).reverse.dropWhile pyIsSpace).reverse)

/-- Python `str.strip(chars)`: drop the given characters from both ends. -/
def pyStripChars (chars : List Char) (s : String) : String :=
  let mem := fun c => chars.contains c
  String.mk (((s.toList.dropWhile mem).reverse.dropWhile mem).reverse)

/-- Maximal runs of characters satisfying `p`; characters failing `p`
separate runs and are dropped. -/
def runsBy (p : Char → Bool) (cs : List Char) : List (List Char) :=
  (cs.foldr
    (fun c acc =>
      if p c then
        match acc with
        | r :: rs => (c :: r) :: rs
        | [] => [[c]]
      else [] :: acc)
    []).filter (fun r => !r.isEmpty)

/-- Python `str.split()` with no separator: whitespace-delimited words,
empties dropped. -/
def pySplitWs (s : String) : List String :=
  (runsBy (fun c => !pyIsSpace c) s.toList).map String.mk

/-- Python `str.splitlines()` restricted to `'\n'` terminators (the only
line terminator in the inputs exercised here). -/
def pySplitLines (s : String) : List String :=
  (s.split (fun c => c = '\n')).dropLast ++
    (if s.endsWith "\n" then [] else [(s.split (fun c => c = '\n')).getLast!])

/-- `str.count(sub)` / `len(re.findall(lit, s))` for a literal pattern:
non-overlapping left-to-right occurrence count. The empty pattern does not
occur in any loaded catalog and is counted as 0. -/
def countOccFuel (pat : List Char) : ℕ → List Char → ℕ
  | 0, _ => 0
  | _ + 1, [] => 0
  | fuel + 1, c :: rest =>
    if pat ≠ [] ∧ pat.isPrefixOf (c :: rest) then
      1 + countOccFuel pat fuel (rest.drop (pat.length - 1))
    else
      countOccFuel pat fuel rest

/-- `countOccFuel` with enough fuel to scan the whole string. -/
def countOcc (pat cs : List Char) : ℕ := countOccFuel pat cs.length cs

/-- Python builtin `max` (kernel-reducible, unlike the lattice `⊔`). -/
def pyMax {α : Type} [LinearOrder α] (a b : α) : α := if b ≤ a then a else b

/-- Python builtin `min` (kernel-reducible, unlike the lattice `⊓`). -/
def pyMin {α : Type} [LinearOrder α] (a b : α) : α := if a ≤ b then a else b

/-- `statistics.mean` over rationals. -/
def statMean (xs : List ℚ) : ℚ := xs.sum / xs.length

/-- `statistics.stdev` (sample standard deviation, `n - 1` denominator);
the square root is supplied as `sqrtF` since it leaves `ℚ`. -/
def statStdev (sqrtF : ℚ → ℚ) (xs : List ℚ) : ℚ :=
  let m := statMean xs
  sqrtF ((xs.map (fun x => (x - m) ^ 2)).sum / (xs.length - 1 : ℤ))

/-! ## Data model (`src/aidar/models`)

`models/pattern.py` and `models/result.py` in this snapshot of the
repository declare *fewer* fields than the rest of the code base reads:
`PatternDef` has no `version`, `PatternResult` has no `pattern_version`, and
`AggregateResult` has neither `published_date` nor `title`, although
`patterns/loader.py`, `patterns/detectors/linguistic_detector.py`,
`core/scorer.py`, `db/queries.py` and `cli/track.py` all use those names.
The structures below reproduce the dataclasses exactly as declared, and the
call sites that pass or read the missing names are embedded as the
`TypeError`/`AttributeError` they raise in Python. -/

/-- The detector-specific `params` dict, modelled as a record of the keys the
detectors read. `threshold_low`, `threshold_high` and `metric` are read with
bare indexing by at least one detector and are modelled as always-present
fields; keys read only via `params.get(key, default)` carry that default as
the record default, so an absent key and the defaulted lookup coincide. -/
structure Params where
  threshold_low : ℚ
  threshold_high : ℚ
  metric : String := ""
  per_n_words : ℤ := 1000
  patterns : List String := []
  terms : List String := []
  match_mode : String := "contains"
  score_cap : ℚ := 0.70
deriving Repr, DecidableEq

/-- `models/pattern.py::PatternDef` — exactly the declared fields (in
particular, *no* `version` field). `__post_init__` validation is embedded
separately as `PatternDef.post_init`. -/
structure PatternDef where
  id : String
  name : String
  description : String
  category : String
  weight : ℚ
  detection_type : String
  params : Params
  severity : String := "medium"
  references : List String := []
  added_by : String := ""
deriving Repr, DecidableEq

/-- `PatternDef.__post_init__`: weight range, category set and
detection-type set validation, raising `ValueError` in declaration order. -/
def PatternDef.post_init (p : PatternDef) : Except PyError Unit :=
  if ¬(0 ≤ p.weight ∧ p.weight ≤ 1) then
    .error (.valueError ("Pattern " ++ p.id ++ ": weight must be 0.0-1.0"))
  else if ¬(p.category = "punctuation" ∨ p.category = "phrases" ∨
      p.category = "structure" ∨ p.category = "emoji" ∨
      p.category = "vocabulary") then
    .error (.valueError ("Pattern " ++ p.id ++ ": invalid category " ++ p.category))
  else if ¬(p.detection_type = "regex" ∨ p.detection_type = "frequency" ∨
      p.detection_type = "structural" ∨ p.detection_type = "linguistic") then
    .error (.valueError ("Pattern " ++ p.id ++ ": invalid detection_type " ++ p.detection_type))
  else
    .ok ()

/-- `models/result.py::PatternResult` — exactly the declared fields (no
`pattern_version`). -/
structure PatternResult where
  pattern_id : String
  category : String
  raw_value : ℚ
  normalized_score : ℚ
  weight : ℚ
  label : String
deriving Repr, DecidableEq

/-- `models/result.py::ScoreVector`. -/
structure ScoreVector where
  punctuation : ℚ := 0
  phrases : ℚ := 0
  structure_ : ℚ := 0
  emoji : ℚ := 0
  vocabulary : ℚ := 0
  pattern_results : List PatternResult := []
deriving Repr, DecidableEq

/-- `models/result.py::AggregateResult` — exactly the declared fields
(`scanned_at` is an ISO timestamp string here; no `published_date`, no
`title`). -/
structure AggregateResult where
  url : Option String
  file_path : Option String
  word_count : ℤ
  score_vector : ScoreVector
  aggregate_score : ℤ
  label : String
  scanned_at : String := ""
  model_match : Option (List (String × ℚ)) := none
deriving Repr, DecidableEq

/-- `models/config.py::WeightConfig` (field `structure` rendered
`structure_`). -/
structure WeightConfig where
  punctuation : ℚ := 0.25
  phrases : ℚ := 0.35
  structure_ : ℚ := 0.20
  vocabulary : ℚ := 0.10
  emoji : ℚ := 0.10
deriving Repr, DecidableEq

/-- `models/config.py::AppConfig`. -/
structure AppConfig where
  patterns_dir : String
  weights : WeightConfig
  likely_ai_threshold : ℤ := 65
  likely_human_threshold : ℤ := 30
deriving Repr, DecidableEq

/-! ## Detector base class (`patterns/detectors/base.py`) -/

/-- `BaseDetector._normalize`: linear min-max clamp between
`params["threshold_low"]` and `params["threshold_high"]`. -/
def BaseDetector.normalize (p : PatternDef) (raw : ℚ) : ℚ :=
  let t_low := p.params.threshold_low
  let t_high := p.params.threshold_high
  if raw ≤ t_low then 0
  else if raw ≥ t_high then 1
  else (raw - t_low) / (t_high - t_low)

/-- `BaseDetector._make_result`. -/
def BaseDetector.make_result (p : PatternDef) (raw : ℚ) (label : String) :
    PatternResult :=
  { pattern_id := p.id
    category := p.category
    raw_value := raw
    normalized_score := BaseDetector.normalize p raw
    weight := p.weight
    label := label }

/-! ## Regex detector (`patterns/detectors/regex_detector.py`)

The configured patterns in every claim are literal strings; `re.compile`
with `re.IGNORECASE` on a literal (or its `re.escape` for length ≤ 3, which
matches the same text) is embedded as case-folded substring counting, the
semantics of `len(r.findall(text))` for a literal pattern. -/

/-- `RegexDetector.detect`. -/
def RegexDetector.detect (p : PatternDef) (text : String) (word_count : ℤ) :
    PatternResult :=
  let per_n : ℤ := p.params.per_n_words
  let total_matches : ℕ :=
    (p.params.patterns.map
      (fun pat => countOcc (pyLower pat).toList (pyLower text).toList)).sum
  let raw : ℚ := ((total_matches : ℚ) / (pyMax word_count 1 : ℤ)) * (per_n : ℚ)
  BaseDetector.make_result p raw
    (fmtFixed 1 raw ++ " per " ++ toString per_n ++ " words")

/-! ## Frequency detector (`patterns/detectors/frequency_detector.py`) -/

/-- Per-term count of `FrequencyDetector.detect`: `exact` mode counts
`" term "` occurrences plus a leading-`"term "` bonus, `contains` mode is a
raw substring count. `text_lower` is the already-lowercased text. -/
def FrequencyDetector.term_count (match_mode : String) (text_lower : String)
    (term : String) : ℕ :=
  if match_mode = "exact" then
    countOcc (" " ++ term ++ " ").toList text_lower.toList +
      (if text_lower.startsWith (term ++ " ") then 1 else 0)
  else
    countOcc term.toList text_lower.toList

/-- `FrequencyDetector.detect` (the `__init__` lowering of the configured
terms is applied inline). -/
def FrequencyDetector.detect (p : PatternDef) (text : String)
    (word_count : ℤ) : PatternResult :=
  let per_n : ℤ := p.params.per_n_words
  let text_lower := pyLower text
  let total : ℕ :=
    (p.params.terms.map
      (fun t => FrequencyDetector.term_count p.params.match_mode text_lower
        (pyLower t))).sum
  let raw : ℚ := ((total : ℚ) / (pyMax word_count 1 : ℤ)) * (per_n : ℚ)
  BaseDetector.make_result p raw
    (fmtFixed 2 raw ++ " per " ++ toString per_n ++ " words (" ++
      toString total ++ " matches)")

/-! ## Structural detector (`patterns/detectors/structural_detector.py`) -/

/-- One line matches `_BULLET_RE` (`^\s*(?:[-*•·◦▪▸►✓✗]|\d+[.)]\s)\s*\S`,
anchored at the line start by `re.MULTILINE`): optional leading whitespace,
then a bullet marker or digits followed by `.`/`)` and a whitespace, then
optional whitespace and a non-space character. -/
def bulletLine (line : String) : Bool :=
  let cs := line.toList.dropWhile pyIsSpace
  let markers : List Char := ['-', '*', '•', '·', '◦', '▪', '▸', '►', '✓', '✗']
  let afterMarker : List Char → Option (List Char) := fun l =>
    match l with
    | c :: rest =>
      if markers.contains c then some rest
      else
        let ds := l.takeWhile Char.isDigit
        let rest' := l.dropWhile Char.isDigit
        if ds ≠ [] then
          match rest' with
          | p :: q :: r => if (p = '.' ∨ p = ')') ∧ pyIsSpace q then some r else none
          | _ => none
        else none
    | [] => none
  match afterMarker cs with
  | some rest => !((rest.dropWhile pyIsSpace).isEmpty)
  | none => false

/-- One line matches `_HEADER_RE` (`^#{1,6}\s+\S` with `re.MULTILINE`). -/
def headerLine (line : String) : Bool :=
  let hashes := line.toList.takeWhile (fun c => c = '#')
  let rest := line.toList.dropWhile (fun c => c = '#')
  1 ≤ hashes.length && hashes.length ≤ 6 &&
    (rest.takeWhile pyIsSpace) ≠ [] && !((rest.dropWhile pyIsSpace).isEmpty)

/-- Code point membership in `_EMOJI_RE`'s character class. -/
def isEmojiChar (c : Char) : Bool :=
  let n := c.val.toNat
  (0x1F600 ≤ n && n ≤ 0x1F64F) || (0x1F300 ≤ n && n ≤ 0x1F5FF) ||
  (0x1F680 ≤ n && n ≤ 0x1F6FF) || (0x1F1E0 ≤ n && n ≤ 0x1F1FF) ||
  (0x2702 ≤ n && n ≤ 0x27B0) || (0x24C2 ≤ n && n ≤ 0x1F251)

/-- `len(_EMOJI_RE.findall(text))`: the regex is `[class]+`, so `findall`
returns one match per *maximal run* of class characters. -/
def emojiRunCount (text : String) : ℕ := (runsBy isEmojiChar text.toList).length

/-- The paragraph split of `_paragraph_uniformity`:
`re.split(r"\n\s*\n", text)` splits at each maximal whitespace run that
contains at least two newlines (the separator consumes from the run's first
`'\n'` through its last `'\n'`); each piece is then stripped and empty
pieces are dropped, so attaching the run's whitespace margins to the
neighbouring pieces is unobservable. -/
def paragraphSplit (text : String) : List String :=
  let step : (List String × List Char × List Char) → Char →
      (List String × List Char × List Char) :=
    fun (segs, cur, ws) c =>
      if pyIsSpace c then (segs, cur, c :: ws)
      else if (ws.filter (fun d => d = '\n')).length ≥ 2 then
        (segs ++ [String.mk cur.reverse], [c], [])
      else (segs, c :: (ws ++ cur), [])
  let (segs, cur, ws) := text.toList.foldl step ([], [], [])
  ((segs ++ [String.mk (ws ++ cur).reverse]).map pyStrip).filter
    (fun p => p ≠ "")

/-- `StructuralDetector._bullet_density`. -/
def StructuralDetector.bullet_density (p : PatternDef) (text : String) :
    PatternResult :=
  let lines := (pySplitLines text).filter (fun l => pyStrip l ≠ "")
  if lines.isEmpty then
    BaseDetector.make_result p 0 "0.0% bullet lines"
  else
    let bullet_lines := ((pySplitLines text).filter bulletLine).length
    let ratio : ℚ := (bullet_lines : ℚ) / (lines.length : ℚ)
    BaseDetector.make_result p ratio
      (fmtFixed 1 (ratio * 100) ++ "% bullet lines")

/-- `StructuralDetector._header_ratio`. -/
def StructuralDetector.header_ratio (p : PatternDef) (text : String)
    (word_count : ℤ) : PatternResult :=
  let headers := ((pySplitLines text).filter headerLine).length
  let ratio : ℚ := (headers : ℚ) / (pyMax word_count 1 : ℤ)
  BaseDetector.make_result p ratio
    (toString headers ++ " headers (" ++ fmtFixed 1 (ratio * 1000) ++
      " per 1000 words)")

/-- `StructuralDetector._paragraph_uniformity` (metric
`paragraph_cv_inverted`); `sqrtF` is the square root inside
`statistics.stdev`. -/
def StructuralDetector.paragraph_uniformity (sqrtF : ℚ → ℚ)
    (p : PatternDef) (text : String) : PatternResult :=
  let paragraphs := paragraphSplit text
  if paragraphs.length < 3 then
    BaseDetector.make_result p 0 "too few paragraphs to measure"
  else
    let lengths : List ℚ := paragraphs.map (fun q => ((pySplitWs q).length : ℚ))
    let mean := statMean lengths
    if mean = 0 then BaseDetector.make_result p 0 "empty paragraphs"
    else
      let stdev := statStdev sqrtF lengths
      let cv := stdev / mean
      let inverted := 1 - pyMin cv 1
      BaseDetector.make_result p inverted
        ("CV=" ++ fmtFixed 2 cv ++ " (uniformity=" ++ fmtFixed 2 inverted ++ ")")

/-- `StructuralDetector._emoji_density`. -/
def StructuralDetector.emoji_density (p : PatternDef) (text : String) :
    PatternResult :=
  let char_count : ℕ := pyMax text.toList.length 1
  let emoji_count := emojiRunCount text
  let ratio : ℚ := (emoji_count : ℚ) / (char_count : ℚ)
  BaseDetector.make_result p ratio
    (toString emoji_count ++ " emojis (" ++ fmtFixed 2 (ratio * 1000) ++
      " per 1000 chars)")

/-- `StructuralDetector.detect`: dispatch on `params["metric"]`; an unknown
metric raises `ValueError`. -/
def StructuralDetector.detect (sqrtF : ℚ → ℚ) (p : PatternDef)
    (text : String) (word_count : ℤ) : Except PyError PatternResult :=
  let metric := p.params.metric
  if metric = "bullet_density" then .ok (StructuralDetector.bullet_density p text)
  else if metric = "header_ratio" then
    .ok (StructuralDetector.header_ratio p text word_count)
  else if metric = "paragraph_cv_inverted" then
    .ok (StructuralDetector.paragraph_uniformity sqrtF p text)
  else if metric = "emoji_density" then
    .ok (StructuralDetector.emoji_density p text)
  else .error (.valueError ("Unknown structural metric: " ++ metric))

/-! ## Linguistic detector (`patterns/detectors/linguistic_detector.py`) -/

/-- The lookahead class of `_SENTENCE_RE`: an ASCII capital or `'"'`. -/
def sentenceStartChar (c : Char) : Bool := ('A' ≤ c && c ≤ 'Z') || c = '"'

/-- A sentence-ending punctuation mark for `_SENTENCE_RE`'s lookbehind. -/
def sentenceEndChar (c : Char) : Bool := c = '.' || c = '!' || c = '?'

/-- `_SENTENCE_RE.split(text)` with
`_SENTENCE_RE = (?<=[.!?])\s+(?=[A-Z"])`: split at each maximal whitespace
run that is immediately preceded by `.`/`!`/`?` and immediately followed by
a capital letter or `'"'`; the separator whitespace is dropped. -/
def sentenceSegments (text : String) : List String :=
  let step : (List String × List Char × List Char) → Char →
      (List String × List Char × List Char) :=
    fun (segs, cur, ws) c =>
      if pyIsSpace c then (segs, cur, c :: ws)
      else if ws ≠ [] ∧ (cur.head?.any sentenceEndChar) ∧ sentenceStartChar c
          then (segs ++ [String.mk cur.reverse], [c], [])
      else (segs, c :: (ws ++ cur), [])
  let (segs, cur, ws) := text.toList.foldl step ([], [], [])
  segs ++ [String.mk (ws ++ cur).reverse]

/-- `_split_sentences`: split the stripped text, strip each piece, keep
pieces that are non-empty and have at least two whitespace-separated
words. -/
def split_sentences (text : String) : List String :=
  ((sentenceSegments (pyStrip text)).map pyStrip).filter
    (fun s => s ≠ "" ∧ (pySplitWs s).length ≥ 2)

/-- `_CONTENT_WORD_RE.findall(text.lower())` with
`_CONTENT_WORD_RE = \b[a-z]{4,}\b`: the maximal word-character runs of the
lowered text that consist solely of `a`–`z` and have length at least 4
(a shorter sub-run never has word boundaries on both sides). -/
def contentWords (text : String) : List String :=
  let isWordChar : Char → Bool := fun c => c.isAlphanum || c = '_'
  ((runsBy isWordChar (pyLower text).toList).filter
    (fun r => r.length ≥ 4 && r.all (fun c => 'a' ≤ c && c ≤ 'z'))).map
    String.mk

/-- `LinguisticDetector._sentence_burstiness`. -/
def LinguisticDetector.sentence_burstiness (sqrtF : ℚ → ℚ) (p : PatternDef)
    (text : String) : PatternResult :=
  let sentences := split_sentences text
  if sentences.length < 4 then
    BaseDetector.make_result p 0 "too few sentences"
  else
    let lengths : List ℚ := sentences.map (fun s => ((pySplitWs s).length : ℚ))
    let mean := statMean lengths
    if mean = 0 then BaseDetector.make_result p 0 "empty sentences"
    else
      let stdev := statStdev sqrtF lengths
      let cv := stdev / mean
      let inverted := pyMax 0 (1 - cv)
      BaseDetector.make_result p inverted
        ("CV=" ++ fmtFixed 2 cv ++ " (burstiness=" ++ fmtFixed 2 (1 - inverted) ++ ")")

/-- `LinguisticDetector._type_token_ratio`: standardized TTR over 50-word
windows advancing 25 words at a time (word list: whitespace tokens, lowered
and stripped of surrounding punctuation). -/
def LinguisticDetector.type_token_ratio (p : PatternDef) (text : String) :
    PatternResult :=
  let punct : List Char := ['.', ',', '!', '?', ';', ':', '"', '\'', '(', ')', '[', ']']
  let words : List String :=
    ((pySplitWs text).filter (fun w => pyStrip w ≠ "")).map
      (fun w => pyStripChars punct (pyLower w))
  if words.length < 50 then
    BaseDetector.make_result p 0 "too few words for TTR"
  else
    let window : ℕ := 50
    let starts := (List.range (words.length - window + 1)).filter
      (fun i => i % (window / 2) = 0)
    let ttrs : List ℚ := starts.map
      (fun i =>
        let chunk := (words.drop i).take window
        ((chunk.dedup.length : ℚ) / (chunk.length : ℚ)))
    let avg_ttr : ℚ :=
      if ttrs ≠ [] then statMean ttrs
      else (words.dedup.length : ℚ) / (words.length : ℚ)
    let inverted := pyMax 0 (1 - avg_ttr)
    BaseDetector.make_result p inverted ("STTR=" ++ fmtFixed 3 avg_ttr)

/-- `LinguisticDetector._question_rate`. -/
def LinguisticDetector.question_rate (p : PatternDef) (text : String) :
    PatternResult :=
  let sentences := split_sentences text
  if sentences.isEmpty then
    BaseDetector.make_result p 0 "no sentences"
  else
    let questions : ℕ :=
      (sentences.filter (fun s =>
        String.endsWith (String.mk (((s.toList.reverse.dropWhile pyIsSpace)).reverse)) "?")).length
    let rate : ℚ := (questions : ℚ) / (sentences.length : ℚ)
    let inverted₀ := pyMax 0 (1 - rate / pyMax p.params.threshold_high 0.001)
    let inverted₁ := pyMin 1 inverted₀
    let cap := p.params.score_cap
    let inverted := pyMin inverted₁ cap
    BaseDetector.make_result p inverted
      (toString questions ++ "/" ++ toString sentences.length ++
        " sentences are questions (" ++ fmtFixed 1 (rate * 100) ++ "%)")

/-- `LinguisticDetector._avg_sentence_length`. -/
def LinguisticDetector.avg_sentence_length (p : PatternDef) (text : String) :
    PatternResult :=
  let sentences := split_sentences text
  if sentences.isEmpty then
    BaseDetector.make_result p 0 "no sentences"
  else
    let avg := statMean (sentences.map (fun s => ((pySplitWs s).length : ℚ)))
    BaseDetector.make_result p avg (fmtFixed 1 avg ++ " words/sentence avg")

/-- `LinguisticDetector._word_freq_variance`. Every return statement of this
method constructs `PatternResult(..., pattern_version=self.pattern.version)`;
`PatternDef` (models/pattern.py) declares no `version` attribute, so each
branch raises `AttributeError` while evaluating `self.pattern.version`,
instead of returning its intended guard/score result. `wordfreqAvailable`
models `_WORDFREQ_AVAILABLE` and `zipf` models
`wordfreq.zipf_frequency(w, "en")`. -/
def LinguisticDetector.word_freq_variance (sqrtF : ℚ → ℚ)
    (wordfreqAvailable : Bool) (zipf : String → ℚ) (p : PatternDef)
    (text : String) : Except PyError PatternResult :=
  let noVersion : PyError :=
    .attributeError "PatternDef object has no attribute version"
  if !wordfreqAvailable then .error noVersion
  else
    let words := contentWords text
    if words.length < 30 then .error noVersion
    else
      let freqs := (words.map zipf).filter (fun f => f > 0)
      if freqs.length < 20 then .error noVersion
      else
        let std := statStdev sqrtF freqs
        let t_low := p.params.threshold_low
        let t_high := p.params.threshold_high
        let normalized := pyMax 0 (pyMin 1 ((t_high - std) / (t_high - t_low)))
        let _ := pyRoundTo 4 std
        let _ := normalized
        .error noVersion

/-- `LinguisticDetector.detect`: dispatch on `params["metric"]`; an unknown
metric raises `ValueError`. -/
def LinguisticDetector.detect (sqrtF : ℚ → ℚ) (wordfreqAvailable : Bool)
    (zipf : String → ℚ) (p : PatternDef) (text : String) (word_count : ℤ) :
    Except PyError PatternResult :=
  let metric := p.params.metric
  let _ := word_count
  if metric = "sentence_burstiness" then
    .ok (LinguisticDetector.sentence_burstiness sqrtF p text)
  else if metric = "type_token_ratio" then
    .ok (LinguisticDetector.type_token_ratio p text)
  else if metric = "question_rate" then
    .ok (LinguisticDetector.question_rate p text)
  else if metric = "avg_sentence_length" then
    .ok (LinguisticDetector.avg_sentence_length p text)
  else if metric = "word_freq_variance" then
    LinguisticDetector.word_freq_variance sqrtF wordfreqAvailable zipf p text
  else .error (.valueError ("Unknown linguistic metric: " ++ metric))

/-! ## Pattern registry (`patterns/registry.py`) -/

/-- A detector instance, holding the pattern plus the immutable derived state
built by the variant's `__init__` (compiled regexes modelled by their pattern
strings; lowered terms and match mode for the frequency variant).
`registry.py` imports and maps only the regex, frequency and structural
variants; `LinguisticDetector` exists but has no constructor in
`_DETECTOR_MAP`. -/
inductive Detector where
  | regexD (pattern : PatternDef) (compiled : List String)
  | frequencyD (pattern : PatternDef) (terms : List String) (match_mode : String)
  | structuralD (pattern : PatternDef)
deriving Repr, DecidableEq

/-- `RegexDetector.__init__`. -/
def RegexDetector.init (p : PatternDef) : Detector :=
  Detector.regexD p p.params.patterns

/-- `FrequencyDetector.__init__`. -/
def FrequencyDetector.init (p : PatternDef) : Detector :=
  Detector.frequencyD p (p.params.terms.map pyLower) p.params.match_mode

/-- `StructuralDetector.__init__` (inherited `BaseDetector.__init__`). -/
def StructuralDetector.init (p : PatternDef) : Detector :=
  Detector.structuralD p

/-- `registry.py::_DETECTOR_MAP`: the fixed detection-type → class mapping.
It has exactly three entries — `"linguistic"` is absent. -/
def DETECTOR_MAP (detection_type : String) : Option (PatternDef → Detector) :=
  if detection_type = "regex" then some RegexDetector.init
  else if detection_type = "frequency" then some FrequencyDetector.init
  else if detection_type = "structural" then some StructuralDetector.init
  else none

/-- First-match association-list lookup, the embedding of `dict` access for
the registry's two dicts. -/
def alistFind {α : Type} (l : List (String × α)) (k : String) : Option α :=
  (l.find? (fun kv => kv.1 = k)).map (fun kv => kv.2)

/-- `PatternRegistry` state: `_patterns` (insertion-ordered `{id: def}`,
last writer wins is irrelevant here since `find?` is only applied to maps
built with distinct keys) and the `_detectors` memo cache. -/
structure PatternRegistry where
  _patterns : List (String × PatternDef)
  _detectors : List (String × Detector) := []
deriving Repr, DecidableEq

/-- `PatternRegistry.__init__`: `{p.id: p for p in patterns}`. For the
id-unique catalogs produced by a successful load this is the insertion-order
association list. -/
def PatternRegistry.init (patterns : List PatternDef) : PatternRegistry :=
  { _patterns := patterns.map (fun p => (p.id, p)), _detectors := [] }

/-- `PatternRegistry.all_patterns`. -/
def PatternRegistry.all_patterns (reg : PatternRegistry) : List PatternDef :=
  reg._patterns.map (fun kv => kv.2)

/-- `PatternRegistry.get_pattern`. -/
def PatternRegistry.get_pattern (reg : PatternRegistry) (pattern_id : String) :
    Option PatternDef :=
  alistFind reg._patterns pattern_id

/-- `PatternRegistry.get_detector`: return the cached instance when present;
otherwise look the pattern up (`self._patterns[pattern_id]`, `KeyError` when
absent), resolve `detection_type` through `_DETECTOR_MAP` (`ValueError` when
unresolved), instantiate, cache, and return. The possibly-updated registry
state is returned alongside the detector. -/
def PatternRegistry.get_detector (reg : PatternRegistry)
    (pattern_id : String) : Except PyError (Detector × PatternRegistry) :=
  match alistFind reg._detectors pattern_id with
  | some d => .ok (d, reg)
  | none =>
    match alistFind reg._patterns pattern_id with
    | none => .error (.keyError pattern_id)
    | some p =>
      match DETECTOR_MAP p.detection_type with
      | none =>
        .error (.valueError
          ("No detector implemented for detection_type " ++ p.detection_type))
      | some detector_cls =>
        let d := detector_cls p
        .ok (d, { reg with _detectors := reg._detectors ++ [(pattern_id, d)] })

/-- `Detector.detect` dispatch: run the variant's `detect` on the held
pattern. External ingredients (`sqrtF` for `statistics.stdev`) are threaded
through; the regex and frequency variants are total, the structural variant
can raise only on an unknown metric. -/
def Detector.detect (sqrtF : ℚ → ℚ) (d : Detector) (text : String)
    (word_count : ℤ) : Except PyError PatternResult :=
  match d with
  | .regexD p _ => .ok (RegexDetector.detect p text word_count)
  | .frequencyD p _ _ => .ok (FrequencyDetector.detect p text word_count)
  | .structuralD p => StructuralDetector.detect sqrtF p text word_count

/-! ## Analyzer (`core/analyzer.py`) -/

/-- The `category_sums` dict of `Analyzer._aggregate`, read pointwise at a
category key: the fold accumulates `normalized_score * weight` for results
of that category. -/
def Analyzer.category_sum (results : List PatternResult) (cat : String) : ℚ :=
  results.foldl
    (fun acc r =>
      if r.category = cat then acc + r.normalized_score * r.weight else acc)
    0

/-- The `category_weight_totals` dict of `Analyzer._aggregate`, read
pointwise at a category key. -/
def Analyzer.category_weight_total (results : List PatternResult)
    (cat : String) : ℚ :=
  results.foldl
    (fun acc r => if r.category = cat then acc + r.weight else acc) 0

/-- The inner `weighted_mean` of `Analyzer._aggregate`. -/
def Analyzer.weighted_mean (results : List PatternResult) (cat : String) : ℚ :=
  let total_weight := Analyzer.category_weight_total results cat
  if total_weight = 0 then 0
  else Analyzer.category_sum results cat / total_weight

/-- `Analyzer._aggregate`: weighted mean per category, packed into a
`ScoreVector` together with the full result list. -/
def Analyzer.aggregate (results : List PatternResult) : ScoreVector :=
  { punctuation := Analyzer.weighted_mean results "punctuation"
    phrases := Analyzer.weighted_mean results "phrases"
    structure_ := Analyzer.weighted_mean results "structure"
    emoji := Analyzer.weighted_mean results "emoji"
    vocabulary := Analyzer.weighted_mean results "vocabulary"
    pattern_results := results }

/-- `Analyzer.run`: invoke each registered pattern's detector (the
composition `get_detector(pattern.id).detect(text, word_count)` is supplied
as the function `detect`, which may fail with any `PyError`); the
`try/except Exception: pass` body keeps exactly the successful results, in
registry order, and aggregates them. -/
def Analyzer.run (patterns : List PatternDef)
    (detect : PatternDef → Except PyError PatternResult) : ScoreVector :=
  Analyzer.aggregate (patterns.filterMap (fun p => (detect p).toOption))

/-- `Analyzer.run` for a concrete registry: each pattern's detector is
resolved through `PatternRegistry.get_detector` exactly as
`core/analyzer.py` does (the detector cache does not influence any
`detect` result, so the cache state is threaded only through
`get_detector`). -/
def Analyzer.run_registry (sqrtF : ℚ → ℚ) (reg : PatternRegistry)
    (text : String) (word_count : ℤ) : ScoreVector :=
  Analyzer.run (PatternRegistry.all_patterns reg)
    (fun p => do
      let (d, _) ← PatternRegistry.get_detector reg p.id
      Detector.detect sqrtF d text word_count)

/-! ## Scorer (`core/scorer.py`) -/

/-- The `raw` weighted sum of `compute_aggregate`: category means combined
with `WeightConfig`'s category weights. -/
def Scorer.raw_weighted_sum (score_vector : ScoreVector)
    (weights : WeightConfig) : ℚ :=
  score_vector.punctuation * weights.punctuation +
  score_vector.phrases * weights.phrases +
  score_vector.structure_ * weights.structure_ +
  score_vector.emoji * weights.emoji +
  score_vector.vocabulary * weights.vocabulary

/-- The integer `aggregate` of `compute_aggregate`:
`max(0, min(100, round(raw * 100)))`. -/
def Scorer.aggregate_score (score_vector : ScoreVector)
    (weights : WeightConfig) : ℤ :=
  pyMax 0 (pyMin 100 (pyRound (Scorer.raw_weighted_sum score_vector weights * 100)))

/-- The label selection of `compute_aggregate`. -/
def Scorer.label (config : AppConfig) (aggregate : ℤ) : String :=
  if aggregate ≤ config.likely_human_threshold then "LIKELY HUMAN"
  else if aggregate ≥ config.likely_ai_threshold then "LIKELY AI"
  else "UNCERTAIN"

/-- `core/scorer.py::compute_aggregate`. After computing `raw`,
`aggregate` and `label`, the source builds
`AggregateResult(..., published_date=published_date, title=title)`;
`AggregateResult` (models/result.py) declares neither keyword, so the
dataclass constructor raises `TypeError` and the function never returns. -/
def compute_aggregate (score_vector : ScoreVector) (config : AppConfig)
    (url : Option String := none) (file_path : Option String := none)
    (word_count : ℤ := 0) (published_date : Option String := none)
    (title : Option String := none) : Except PyError AggregateResult :=
  let aggregate := Scorer.aggregate_score score_vector config.weights
  let _ := Scorer.label config aggregate
  let _ := (url, file_path, word_count, published_date, title)
  .error (.typeError
    "AggregateResult.init got an unexpected keyword argument published_date")

/-! ## Catalog loading (`patterns/loader.py`) -/

/-- One parsed YAML pattern document: each possible field, present or
absent. Values are already of the field's converted type (the `str`/`float`/
`int`/`dict`/`list` conversions in `_parse_pattern` succeed on documents of
this shape). -/
structure PatternDoc where
  id : Option String := none
  name : Option String := none
  description : Option String := none
  category : Option String := none
  weight : Option ℚ := none
  detection_type : Option String := none
  params : Option Params := none
  version : Option ℤ := none
  severity : Option String := none
  references : Option (List String) := none
  added_by : Option String := none
deriving Repr, DecidableEq

/-- `loader.py::_parse_pattern`. The required-field check runs first, in
list order, raising `PatternLoadError("Missing required field '...'")` for
the first absent field. A document that passes the check reaches
`PatternDef(..., version=int(data.get("version", 1)), ...)`; the
`PatternDef` dataclass (models/pattern.py) declares no `version` field, so
the constructor raises `TypeError`, which the surrounding
`except (TypeError, ValueError)` re-raises as
`PatternLoadError("Invalid field value: ...")` — hence no document ever
parses successfully. -/
def parse_pattern (data : PatternDoc) : Except PyError PatternDef :=
  if data.id.isNone then
    .error (.patternLoadError "Missing required field id")
  else if data.name.isNone then
    .error (.patternLoadError "Missing required field name")
  else if data.description.isNone then
    .error (.patternLoadError "Missing required field description")
  else if data.category.isNone then
    .error (.patternLoadError "Missing required field category")
  else if data.weight.isNone then
    .error (.patternLoadError "Missing required field weight")
  else if data.detection_type.isNone then
    .error (.patternLoadError "Missing required field detection_type")
  else if data.params.isNone then
    .error (.patternLoadError "Missing required field params")
  else
    .error (.patternLoadError
      "Invalid field value: init got an unexpected keyword argument version")

/-! ## Model-profile comparison (`core/scorer.py::compare_model_profile`) -/

/-- The return value of `compare_model_profile`:
`{"similarity": round(s, 3), **{k: round(v, 3) for k, v in deviations}}`. -/
structure CompareResult where
  similarity : ℚ
  deviations : List (String × ℚ)
deriving Repr, DecidableEq

/-- The deviation accumulation loop of `compare_model_profile`: iterate the
profile items in order; for each pattern id with at least one matching
result in `score_vector.pattern_results`, record
`abs(first_match.normalized_score - expected)`. -/
def Comparator.deviation_list (score_vector : ScoreVector)
    (model_profile : List (String × ℚ)) : List (String × ℚ) :=
  model_profile.foldl
    (fun acc pe =>
      match score_vector.pattern_results.filter
          (fun r => r.pattern_id = pe.1) with
      | [] => acc
      | r :: _ => acc ++ [(pe.1, |r.normalized_score - pe.2|)])
    []

/-- `core/scorer.py::compare_model_profile`. -/
def compare_model_profile (score_vector : ScoreVector)
    (model_profile : List (String × ℚ)) : CompareResult :=
  let deviations := Comparator.deviation_list score_vector model_profile
  let similarity : ℚ :=
    if deviations ≠ [] then
      1 - (deviations.map (fun kv => kv.2)).sum / (deviations.length : ℚ)
    else 0
  { similarity := pyRoundTo 3 similarity
    deviations := deviations.map (fun kv => (kv.1, pyRoundTo 3 kv.2)) }

/-! ## Database layer (`db/database.py` schema, `db/queries.py`)

The stored state is modelled relationally: a `scans` row and a
`pattern_scores` row per the `SCHEMA` in `db/database.py`. Rows exist
independently of this snapshot's (broken) writer — the schema predates it
and `get_stale_urls` only reads. -/

/-- A row of the `scans` table (the columns `get_stale_urls` touches, plus
the identity columns). -/
structure ScanRow where
  id : ℕ
  url : Option String
  domain : String := ""
  file_path : Option String := none
  word_count : ℤ := 0
  score : ℤ := 0
  label : String := ""
  published_date : Option String := none
  title : Option String := none
deriving Repr, DecidableEq

/-- A row of the `pattern_scores` table. -/
structure PatternScoreRow where
  scan_id : ℕ
  pattern_id : String
  category : String := ""
  raw_value : ℚ := 0
  norm_score : ℚ := 0
  pattern_version : ℤ := 1
deriving Repr, DecidableEq

/-- The two tables. -/
structure Db where
  scans : List ScanRow
  pattern_scores : List PatternScoreRow
deriving Repr, DecidableEq

/-- The inner `SELECT DISTINCT s.url FROM scans s JOIN pattern_scores ps ON
ps.scan_id = s.id WHERE ps.pattern_id = ? AND ps.pattern_version < ? AND
s.url IS NOT NULL [AND s.domain = ?]` of `get_stale_urls` (distinctness is
irrelevant for membership; the Python-side `set` deduplicates). -/
def Db.query_stale (db : Db) (pattern_id : String) (current_version : ℤ)
    (domain : Option String) : List String :=
  (db.scans.filter
    (fun s =>
      s.url.isSome &&
      (match domain with | some d => s.domain = d | none => true) &&
      db.pattern_scores.any
        (fun ps => ps.scan_id = s.id && ps.pattern_id = pattern_id &&
          ps.pattern_version < current_version))).filterMap
    (fun s => s.url)

/-- `db/queries.py::get_stale_urls`: union the per-pattern queries over the
`{pattern_id: current_version}` items, then `sorted(set)` — modelled as
dedup + insertion sort by the string order. -/
def get_stale_urls (db : Db) (current_versions : List (String × ℤ))
    (domain : Option String := none) : List String :=
  List.insertionSort (fun a b => a ≤ b)
    ((current_versions.foldl
      (fun acc pc => acc ++ Db.query_stale db pc.1 pc.2 domain) []).dedup)

/-- `db/queries.py::store_result`. After computing the url's domain and the
score JSON, the source builds the parameter tuple of the upsert statement;
the tuple reads `result.published_date` and `result.title`, attributes the
`AggregateResult` dataclass (models/result.py) does not declare, so the
call raises `AttributeError` before any row is written or updated (and the
later pattern-score insert would likewise read the undeclared
`r.pattern_version`). -/
def store_result (db : Db) (result : AggregateResult) :
    Except PyError (Db × ℕ) :=
  let _ := result.url
  let _ := db
  .error (.attributeError
    "AggregateResult object has no attribute published_date")

/-! ## Specification-side definitions

These state the aggregation/comparison formulas in the spec's own words
(filter / map / sum), to be compared with the dict-and-loop embeddings
above. -/

/-- The surviving results of one category. -/
def resultsOfCategory (results : List PatternResult) (cat : String) :
    List PatternResult :=
  results.filter (fun r => r.category = cat)

/-- Spec §4.4: per category,
`mean = Σ(normalizedScore × weight) ÷ Σ(weight)` over the surviving results
of that category; zero total weight yields exactly 0. -/
def specCategoryMean (results : List PatternResult) (cat : String) : ℚ :=
  let rs := resultsOfCategory results cat
  let totalWeight := (rs.map (fun r => r.weight)).sum
  if totalWeight = 0 then 0
  else (rs.map (fun r => r.normalized_score * r.weight)).sum / totalWeight

/-- A conditional-accumulation `foldl` (the pointwise reading of the
analyzer's dict updates) is the sum of `g` over the filtered list. -/
theorem foldl_ite_add (g : PatternResult → ℚ) (cat : String) :
    ∀ (l : List PatternResult) (init : ℚ),
      l.foldl (fun acc r => if r.category = cat then acc + g r else acc) init
        = init + ((l.filter (fun r => r.category = cat)).map g).sum := by
  intro l
  induction l with
  | nil => intro init; simp
  | cons a l ih =>
    intro init
    by_cases h : a.category = cat <;>
      simp [h, ih, add_assoc]

/-- `category_sums[cat]` is the spec's numerator. -/
theorem category_sum_eq (l : List PatternResult) (cat : String) :
    Analyzer.category_sum l cat =
      ((l.filter (fun r => r.category = cat)).map
        (fun r => r.normalized_score * r.weight)).sum := by
  have h := foldl_ite_add (fun r => r.normalized_score * r.weight) cat l 0
  simpa [Analyzer.category_sum] using h

/-- `category_weight_totals[cat]` is the spec's denominator. -/
theorem category_weight_total_eq (l : List PatternResult) (cat : String) :
    Analyzer.category_weight_total l cat =
      ((l.filter (fun r => r.category = cat)).map (fun r => r.weight)).sum := by
  have h := foldl_ite_add (fun r => r.weight) cat l 0
  simpa [Analyzer.category_weight_total] using h

/-- The analyzer's `weighted_mean` equals the spec's category mean. -/
theorem weighted_mean_eq_spec (l : List PatternResult) (cat : String) :
    Analyzer.weighted_mean l cat = specCategoryMean l cat := by
  simp only [Analyzer.weighted_mean, specCategoryMean, resultsOfCategory,
    category_sum_eq, category_weight_total_eq]

/-- C4: for every registry content and every detector behaviour (each
detector may fail with any exception), `Analyzer.run` returns a
`ScoreVector`; the failing patterns are excluded — the aggregated list is
exactly the successful results in registry order — and each category mean
is `Σ(normalizedScore × weight) ÷ Σ(weight)` over the surviving results of
that category, a category with zero total surviving weight yielding exactly
0. -/
theorem analyzer_run_isolates_failures_and_takes_weighted_means
    (patterns : List PatternDef)
    (detect : PatternDef → Except PyError PatternResult) :
    (Analyzer.run patterns detect).pattern_results =
        patterns.filterMap (fun p => (detect p).toOption) ∧
      Analyzer.run patterns detect =
        { punctuation :=
            specCategoryMean
              (patterns.filterMap (fun p => (detect p).toOption)) "punctuation"
          phrases :=
            specCategoryMean
              (patterns.filterMap (fun p => (detect p).toOption)) "phrases"
          structure_ :=
            specCategoryMean
              (patterns.filterMap (fun p => (detect p).toOption)) "structure"
          emoji :=
            specCategoryMean
              (patterns.filterMap (fun p => (detect p).toOption)) "emoji"
          vocabulary :=
            specCategoryMean
              (patterns.filterMap (fun p => (detect p).toOption)) "vocabulary"
          pattern_results :=
            patterns.filterMap (fun p => (detect p).toOption) } := by
  refine ⟨rfl, ?_⟩
  simp only [Analyzer.run, Analyzer.aggregate, weighted_mean_eq_spec]

/-- The category sums are invariant under permutation of the result list. -/
theorem category_sum_perm (l₁ l₂ : List PatternResult) (h : l₁.Perm l₂)
    (cat : String) :
    Analyzer.category_sum l₁ cat = Analyzer.category_sum l₂ cat := by
  rw [category_sum_eq, category_sum_eq]
  exact ((h.filter _).map _).sum_eq

/-- The category weight totals are invariant under permutation. -/
theorem category_weight_total_perm (l₁ l₂ : List PatternResult)
    (h : l₁.Perm l₂) (cat : String) :
    Analyzer.category_weight_total l₁ cat =
      Analyzer.category_weight_total l₂ cat := by
  rw [category_weight_total_eq, category_weight_total_eq]
  exact ((h.filter _).map _).sum_eq

/-- C6: aggregation is order-independent — permuting the `PatternResult`
list leaves every category mean of the produced `ScoreVector` unchanged. -/
theorem aggregate_perm_invariant (l₁ l₂ : List PatternResult)
    (h : l₁.Perm l₂) :
    (Analyzer.aggregate l₁).punctuation = (Analyzer.aggregate l₂).punctuation ∧
    (Analyzer.aggregate l₁).phrases = (Analyzer.aggregate l₂).phrases ∧
    (Analyzer.aggregate l₁).structure_ = (Analyzer.aggregate l₂).structure_ ∧
    (Analyzer.aggregate l₁).emoji = (Analyzer.aggregate l₂).emoji ∧
    (Analyzer.aggregate l₁).vocabulary = (Analyzer.aggregate l₂).vocabulary := by
  have hm : ∀ cat, Analyzer.weighted_mean l₁ cat = Analyzer.weighted_mean l₂ cat := by
    intro cat
    simp only [Analyzer.weighted_mean, category_sum_perm l₁ l₂ h cat,
      category_weight_total_perm l₁ l₂ h cat]
  exact ⟨hm _, hm _, hm _, hm _, hm _⟩

/-- Witness for C6 at a concrete pair of shuffled result lists. -/
theorem aggregate_perm_invariant_witness :
    (Analyzer.aggregate
      [{ pattern_id := "a", category := "phrases", raw_value := 2,
         normalized_score := 1, weight := 1/2, label := "" },
       { pattern_id := "b", category := "phrases", raw_value := 0,
         normalized_score := 0, weight := 1/4, label := "" }]).phrases =
    (Analyzer.aggregate
      [{ pattern_id := "b", category := "phrases", raw_value := 0,
         normalized_score := 0, weight := 1/4, label := "" },
       { pattern_id := "a", category := "phrases", raw_value := 2,
         normalized_score := 1, weight := 1/2, label := "" }]).phrases := by
  exact (aggregate_perm_invariant _ _ (List.Perm.swap _ _ _)).2.1

/-! ## Concrete scenario: the end-to-end pipeline (spec §8) -/

/-- The single catalog pattern of the end-to-end scenario: a Regex pattern
whose pattern list matches `"is a test"`, weight 1.0, category `phrases`,
thresholds `[0, 1]`, `per_n_words = 10`. -/
def patC1 : PatternDef :=
  { id := "ai-phrases", name := "AI phrases", description := "d",
    category := "phrases", weight := 1, detection_type := "regex",
    params := { threshold_low := 0, threshold_high := 1, per_n_words := 10,
                patterns := ["is a test"] } }

/-- The end-to-end input text (`wordCount = 10`). -/
def textC1 : String := "This is a test. This is a test. This is a test."

/-- The end-to-end registry holding only `patC1`. -/
def regC1 : PatternRegistry := PatternRegistry.init [patC1]

/-- `WeightConfig{phrases: 1.0, others: 0}`. -/
def weightsC1 : WeightConfig :=
  { punctuation := 0, phrases := 1, structure_ := 0, vocabulary := 0, emoji := 0 }

/-- The end-to-end `AppConfig` (default thresholds 30 / 65). -/
def configC1 : AppConfig := { patterns_dir := "patterns", weights := weightsC1 }

unseal Rat.mul Rat.inv Rat.add Rat.sub Rat.ofScientific in
/-- C1: on the end-to-end input, the detector produces raw value 3.0 and
normalized score 1.0, the analyzer's phrases category mean is 1.0, and the
scorer computes aggregate 100 with label LIKELY AI — but `compute_aggregate`
then raises `TypeError` while building the `AggregateResult` (it passes
`published_date`/`title` keywords the dataclass does not declare), so the
pipeline fails to return the claimed `AggregateResult`. -/
theorem end_to_end_pipeline_scores_then_raises (sqrtF : ℚ → ℚ) :
    (RegexDetector.detect patC1 textC1 10).raw_value = 3 ∧
    (RegexDetector.detect patC1 textC1 10).normalized_score = 1 ∧
    (Analyzer.run_registry sqrtF regC1 textC1 10).phrases = 1 ∧
    Scorer.aggregate_score (Analyzer.run_registry sqrtF regC1 textC1 10)
        configC1.weights = 100 ∧
    Scorer.label configC1
        (Scorer.aggregate_score (Analyzer.run_registry sqrtF regC1 textC1 10)
          configC1.weights) = "LIKELY AI" ∧
    compute_aggregate (Analyzer.run_registry sqrtF regC1 textC1 10) configC1
        (some "https://example.com") none 10 none none =
      Except.error (.typeError
        "AggregateResult.init got an unexpected keyword argument published_date") := by
  have h1 : Analyzer.run_registry sqrtF regC1 textC1 10 =
      Analyzer.aggregate [RegexDetector.detect patC1 textC1 10] := rfl
  refine ⟨rfl, rfl, ?_, ?_, ?_, rfl⟩ <;> rw [h1] <;> rfl

/-! ## Concrete scenario: catalog loading (spec §4.1) -/

/-- A configuration document carrying every required field, with weight in
`[0, 1]` and category / detection type from their valid sets, and no
optional field. -/
def docC2 : PatternDoc :=
  { id := some "em-dash-density", name := some "Em dash density",
    description := some "Frequency of em dashes",
    category := some "punctuation", weight := some (1/2),
    detection_type := some "regex",
    params := some { threshold_low := 0, threshold_high := 1 } }

unseal Rat.mul Rat.inv Rat.add Rat.sub Rat.ofScientific in
/-- C2: a document missing a required field is indeed rejected with a
`PatternLoadError` naming that field — but a fully valid document is *also*
rejected: `_parse_pattern` passes `version=...` to the `PatternDef`
dataclass, which declares no such field, so the constructor's `TypeError`
is re-raised as `PatternLoadError("Invalid field value: ...")` and no
catalog load ever succeeds, contrary to the claim. The document's values
would pass `__post_init__` validation (third conjunct). -/
theorem parse_pattern_rejects_valid_documents :
    parse_pattern docC2 =
      Except.error (.patternLoadError
        "Invalid field value: init got an unexpected keyword argument version") ∧
    parse_pattern { docC2 with weight := none } =
      Except.error (.patternLoadError "Missing required field weight") ∧
    PatternDef.post_init
      { id := "em-dash-density", name := "Em dash density",
        description := "Frequency of em dashes", category := "punctuation",
        weight := 1/2, detection_type := "regex",
        params := { threshold_low := 0, threshold_high := 1 } } =
      Except.ok () := by
  refine ⟨rfl, rfl, ?_⟩
  rfl

/-! ## Concrete scenario: minimum-sample guards (spec §4.2) -/

/-- A structural pattern for the `paragraph_cv_inverted` metric. -/
def patParagraph : PatternDef :=
  { id := "uniform-paragraphs", name := "Paragraph uniformity",
    description := "d", category := "structure", weight := 1/2,
    detection_type := "structural",
    params := { threshold_low := 0, threshold_high := 1,
                metric := "paragraph_cv_inverted" } }

/-- A linguistic pattern for the `sentence_burstiness` metric. -/
def patBurstiness : PatternDef :=
  { id := "burstiness", name := "Sentence burstiness", description := "d",
    category := "structure", weight := 1/2, detection_type := "linguistic",
    params := { threshold_low := 0, threshold_high := 1,
                metric := "sentence_burstiness" } }

/-- A linguistic pattern for the `type_token_ratio` metric. -/
def patTTR : PatternDef :=
  { id := "ttr", name := "Type token ratio", description := "d",
    category := "vocabulary", weight := 1/2, detection_type := "linguistic",
    params := { threshold_low := 0, threshold_high := 1,
                metric := "type_token_ratio" } }

/-- A linguistic pattern for the `word_freq_variance` metric. -/
def patWFV : PatternDef :=
  { id := "wfv", name := "Word frequency variance", description := "d",
    category := "vocabulary", weight := 1/2, detection_type := "linguistic",
    params := { threshold_low := 7/10, threshold_high := 5/4,
                metric := "word_freq_variance" } }

unseal Rat.mul Rat.inv Rat.add Rat.sub Rat.ofScientific in
/-- C5: the `paragraph_cv_inverted` guard (< 3 paragraphs), the
`sentence_burstiness` guard (< 4 sentences) and the `type_token_ratio`
guard (< 50 words) all return a `PatternResult` with raw value 0.0 and a
diagnostic label, as claimed — but every guard of `word_freq_variance`
(here: < 30 content words) raises `AttributeError` instead of returning,
because its guard result is built with
`pattern_version=self.pattern.version` and `PatternDef` declares no
`version` attribute. -/
theorem detector_guards_return_zero_except_word_freq_variance
    (sqrtF : ℚ → ℚ) (zipf : String → ℚ) :
    StructuralDetector.detect sqrtF patParagraph "one two three" 3 =
      Except.ok
        { pattern_id := "uniform-paragraphs", category := "structure",
          raw_value := 0, normalized_score := 0, weight := 1/2,
          label := "too few paragraphs to measure" } ∧
    LinguisticDetector.detect sqrtF true zipf patBurstiness
        "Too short. Yes." 3 =
      Except.ok
        { pattern_id := "burstiness", category := "structure",
          raw_value := 0, normalized_score := 0, weight := 1/2,
          label := "too few sentences" } ∧
    LinguisticDetector.detect sqrtF true zipf patTTR "hello world" 2 =
      Except.ok
        { pattern_id := "ttr", category := "vocabulary", raw_value := 0,
          normalized_score := 0, weight := 1/2,
          label := "too few words for TTR" } ∧
    LinguisticDetector.detect sqrtF true zipf patWFV "hello world" 2 =
      Except.error
        (.attributeError "PatternDef object has no attribute version") := by
  refine ⟨rfl, rfl, rfl, rfl⟩

/-! ## Registry resolution and caching (spec §4.3) -/

/-- If a key is absent from an association list, appending a binding for it
makes the lookup return exactly that binding. -/
theorem alistFind_append_of_none {α : Type} {l : List (String × α)}
    {k : String} (v : α) (h : alistFind l k = none) :
    alistFind (l ++ [(k, v)]) k = some v := by
  have h' : l.find? (fun kv => kv.1 = k) = none := by
    cases hf : l.find? (fun kv => kv.1 = k) with
    | none => rfl
    | some x =>
      unfold alistFind at h
      rw [hf] at h
      simp at h
  unfold alistFind
  rw [List.find?_append, h']
  simp [List.find?]

/-- A registry holding one pattern of each mapped detection type is not
needed for the counterexample; one linguistic pattern suffices. -/
def regLinguistic : PatternRegistry := PatternRegistry.init [patBurstiness]

/-- C3 counterexample: `linguistic` is one of the four detection-type
variants and `patBurstiness` is a loaded pattern of that type, yet
`get_detector` does not resolve it — `_DETECTOR_MAP` has no `linguistic`
entry, so the lookup fails with the unsupported-detection-type
`ValueError`. -/
theorem get_detector_linguistic_unresolved :
    PatternRegistry.get_detector regLinguistic "burstiness" =
      Except.error (.valueError
        "No detector implemented for detection_type linguistic") := rfl

/-- C3 (amended): for a loaded pattern whose detection type is one of the
*three mapped* variants (regex, frequency, structural), `get_detector`
resolves it through the fixed mapping, instantiates the detector on first
access, caches it, and returns the identical cached instance (and identical
registry state) on every later call; a pattern whose detection type is
unmapped — including the fully implemented `linguistic` variant — fails
with the named unsupported-detection-type `ValueError`, not a generic
fault. -/
theorem get_detector_resolves_mapped_types_and_caches
    (reg : PatternRegistry) (pattern_id : String) (p : PatternDef)
    (hmiss : alistFind reg._detectors pattern_id = none)
    (hfound : alistFind reg._patterns pattern_id = some p) :
    (p.detection_type = "regex" ∨ p.detection_type = "frequency" ∨
        p.detection_type = "structural" →
      ∃ ctor, DETECTOR_MAP p.detection_type = some ctor ∧
        PatternRegistry.get_detector reg pattern_id =
          Except.ok (ctor p,
            { reg with
              _detectors := reg._detectors ++ [(pattern_id, ctor p)] }) ∧
        PatternRegistry.get_detector
            { reg with
              _detectors := reg._detectors ++ [(pattern_id, ctor p)] }
            pattern_id =
          Except.ok (ctor p,
            { reg with
              _detectors := reg._detectors ++ [(pattern_id, ctor p)] })) ∧
    (p.detection_type ≠ "regex" → p.detection_type ≠ "frequency" →
        p.detection_type ≠ "structural" →
      PatternRegistry.get_detector reg pattern_id =
        Except.error (.valueError
          ("No detector implemented for detection_type " ++
            p.detection_type))) := by
  constructor
  · intro hmapped
    rcases hmapped with h | h | h
    · refine ⟨RegexDetector.init, ?_, ?_, ?_⟩
      · simp [DETECTOR_MAP, h]
      · simp [PatternRegistry.get_detector, DETECTOR_MAP, hmiss, hfound, h]
      · simp [PatternRegistry.get_detector,
          alistFind_append_of_none (RegexDetector.init p) hmiss]
    · refine ⟨FrequencyDetector.init, ?_, ?_, ?_⟩
      · simp [DETECTOR_MAP, h]
      · simp [PatternRegistry.get_detector, DETECTOR_MAP, hmiss, hfound, h]
      · simp [PatternRegistry.get_detector,
          alistFind_append_of_none (FrequencyDetector.init p) hmiss]
    · refine ⟨StructuralDetector.init, ?_, ?_, ?_⟩
      · simp [DETECTOR_MAP, h]
      · simp [PatternRegistry.get_detector, DETECTOR_MAP, hmiss, hfound, h]
      · simp [PatternRegistry.get_detector,
          alistFind_append_of_none (StructuralDetector.init p) hmiss]
  · intro h1 h2 h3
    simp [PatternRegistry.get_detector, DETECTOR_MAP, hmiss, hfound,
      h1, h2, h3]

/-- Witness for the amended C3 theorem: the regex pattern of the end-to-end
registry resolves, is cached on first access, and the second access returns
the same instance and state. -/
theorem get_detector_resolves_mapped_types_and_caches_witness :
    ∃ ctor, DETECTOR_MAP patC1.detection_type = some ctor ∧
      PatternRegistry.get_detector regC1 "ai-phrases" =
        Except.ok (ctor patC1,
          { regC1 with
            _detectors := regC1._detectors ++ [("ai-phrases", ctor patC1)] }) ∧
      PatternRegistry.get_detector
          { regC1 with
            _detectors := regC1._detectors ++ [("ai-phrases", ctor patC1)] }
          "ai-phrases" =
        Except.ok (ctor patC1,
          { regC1 with
            _detectors := regC1._detectors ++ [("ai-phrases", ctor patC1)] }) := by
  exact (get_detector_resolves_mapped_types_and_caches regC1 "ai-phrases"
    patC1 rfl rfl).1 (Or.inl rfl)

/-! ## Model-profile comparison (spec §4.7) -/

/-- Spec-side matched deviations: for each profile item whose pattern id has
a result among the document's pattern results, the absolute deviation
between the expected and the (first) actual normalized score, in profile
order. -/
def specMatchedDeviations (score_vector : ScoreVector)
    (model_profile : List (String × ℚ)) : List (String × ℚ) :=
  model_profile.filterMap
    (fun pe =>
      match score_vector.pattern_results.filter
          (fun r => r.pattern_id = pe.1) with
      | [] => none
      | r :: _ => some (pe.1, |r.normalized_score - pe.2|))

/-- The comparison loop accumulates exactly the spec-side matched
deviations. -/
theorem deviation_list_eq_spec (score_vector : ScoreVector)
    (model_profile : List (String × ℚ)) :
    Comparator.deviation_list score_vector model_profile =
      specMatchedDeviations score_vector model_profile := by
  have aux : ∀ (profile : List (String × ℚ)) (acc : List (String × ℚ)),
      profile.foldl
        (fun acc pe =>
          match score_vector.pattern_results.filter
              (fun r => r.pattern_id = pe.1) with
          | [] => acc
          | r :: _ => acc ++ [(pe.1, |r.normalized_score - pe.2|)])
        acc =
      acc ++ specMatchedDeviations score_vector profile := by
    intro profile
    induction profile with
    | nil => intro acc; simp [specMatchedDeviations]
    | cons pe rest ih =>
      intro acc
      cases hf : score_vector.pattern_results.filter
          (fun r => r.pattern_id = pe.1) with
      | nil => simp [specMatchedDeviations, hf, ih]
      | cons r rs => simp [specMatchedDeviations, hf, ih]
  have h := aux model_profile []
  simpa [Comparator.deviation_list] using h

/-- `round(0.0, 3)` is `0.0`. -/
theorem pyRoundTo_three_zero : pyRoundTo 3 (0 : ℚ) = 0 := by
  norm_num [pyRoundTo, pyRound]

/-- A score vector whose only result has normalized score `0.0005`, and a
profile expecting `0.0` for that pattern: the exact similarity is
`0.9995`, which `round(_, 3)` turns into `1.0`. -/
def svRounding : ScoreVector :=
  { pattern_results :=
      [{ pattern_id := "p1", category := "phrases", raw_value := 1,
         normalized_score := 1/2000, weight := 1, label := "" }] }

/-- The profile matched against `svRounding`. -/
def profRounding : List (String × ℚ) := [("p1", 0)]

unseal Rat.mul Rat.inv Rat.add Rat.sub Rat.ofScientific in
/-- C9 counterexample: the returned similarity is not `1 − mean(deviations)`
— at this input the exact value is `0.9995` but the function returns the
3-decimal rounding `1.0`. -/
theorem compare_model_profile_similarity_not_exact :
    ¬ ((compare_model_profile svRounding profRounding).similarity =
        1 - ((Comparator.deviation_list svRounding profRounding).map
            (fun kv => kv.2)).sum /
          ((Comparator.deviation_list svRounding profRounding).length : ℚ)) := by
  intro h
  have hl : (compare_model_profile svRounding profRounding).similarity = 1 := by
    decide
  have hr : 1 - ((Comparator.deviation_list svRounding profRounding).map
      (fun kv => kv.2)).sum /
        ((Comparator.deviation_list svRounding profRounding).length : ℚ) =
      1999/2000 := by
    decide
  rw [hl, hr] at h
  norm_num at h

/-- A score vector and profile whose single matched deviation is `5.0`. -/
def svNegative : ScoreVector :=
  { pattern_results :=
      [{ pattern_id := "p1", category := "phrases", raw_value := 0,
         normalized_score := 0, weight := 1, label := "" }] }

/-- A model profile with an out-of-range expected score (profile loading
applies no range check), giving similarity `1 − 5 = −4`. -/
def profNegative : List (String × ℚ) := [("p1", 5)]

unseal Rat.mul Rat.inv Rat.add Rat.sub Rat.ofScientific in
/-- C9 (amended): `compare_model_profile` returns, for each pattern id
present in both the profile and the document's pattern results, the
absolute deviation between expected and actual normalized score *rounded to
three decimals*, and a similarity equal to `1 − mean(deviations)` likewise
rounded to three decimals (`0.0` when no pattern ids match); the similarity
is not clamped to `[0, 1]` and is negative at the concrete input
`svNegative`/`profNegative`. -/
theorem compare_model_profile_rounded_spec :
    (∀ (score_vector : ScoreVector) (model_profile : List (String × ℚ)),
      compare_model_profile score_vector model_profile =
        { similarity :=
            if specMatchedDeviations score_vector model_profile ≠ [] then
              pyRoundTo 3 (1 -
                ((specMatchedDeviations score_vector model_profile).map
                    (fun kv => kv.2)).sum /
                  ((specMatchedDeviations score_vector model_profile).length : ℚ))
            else 0
          deviations :=
            (specMatchedDeviations score_vector model_profile).map
              (fun kv => (kv.1, pyRoundTo 3 kv.2)) }) ∧
    (compare_model_profile svNegative profNegative).similarity < 0 := by
  constructor
  · intro score_vector model_profile
    unfold compare_model_profile
    rw [deviation_list_eq_spec]
    by_cases h : specMatchedDeviations score_vector model_profile = []
    · simp [h, pyRoundTo_three_zero]
    · simp [h]
  · have hv : (compare_model_profile svNegative profNegative).similarity = -4 := by
      decide
    rw [hv]
    norm_num

/-! ## Persistence: upsert and staleness (spec §4.8, §5) -/

/-- An existing stored row with a known publication date and title. -/
def scanRowExisting : ScanRow :=
  { id := 1, url := some "https://a.example/post", domain := "a.example",
    word_count := 500, score := 40, label := "UNCERTAIN",
    published_date := some "2024-03-15", title := some "Original title" }

/-- A database holding the existing row. -/
def dbExisting : Db := { scans := [scanRowExisting], pattern_scores := [] }

/-- A re-store of the same url whose incoming `published_date`/`title` are
null (as they would be after a fetch that found no metadata). -/
def resultRestore : AggregateResult :=
  { url := some "https://a.example/post", file_path := none,
    word_count := 600, score_vector := {}, aggregate_score := 55,
    label := "UNCERTAIN" }

/-- C8: re-storing over the existing row does not perform the claimed
coalescing upsert — `store_result` raises `AttributeError` while building
the statement parameters, because it reads `result.published_date` and
`result.title` and the `AggregateResult` dataclass declares neither
attribute; no row field is updated at all. (The SQL text itself does spell
`COALESCE(excluded.published_date, scans.published_date)`, so the claim
matches the evident intent.) -/
theorem store_result_raises_before_upsert :
    store_result dbExisting resultRestore =
      Except.error (.attributeError
        "AggregateResult object has no attribute published_date") := rfl

/-- Membership in a fold that appends a list per element. -/
theorem mem_foldl_append {α β : Type} (f : α → List β) (l : List α) (x : β) :
    ∀ acc : List β,
      (x ∈ l.foldl (fun a c => a ++ f c) acc ↔ x ∈ acc ∨ ∃ c ∈ l, x ∈ f c) := by
  induction l with
  | nil => intro acc; simp
  | cons c rest ih =>
    intro acc
    rw [List.foldl_cons, ih]
    constructor
    · rintro (h | h)
      · rcases List.mem_append.mp h with h | h
        · exact Or.inl h
        · exact Or.inr ⟨c, List.mem_cons_self c rest, h⟩
      · rcases h with ⟨d, hd, hx⟩
        exact Or.inr ⟨d, List.mem_cons_of_mem c hd, hx⟩
    · rintro (h | ⟨d, hd, hx⟩)
      · exact Or.inl (List.mem_append.mpr (Or.inl h))
      · rcases List.mem_cons.mp hd with rfl | hd
        · exact Or.inl (List.mem_append.mpr (Or.inr hx))
        · exact Or.inr ⟨d, hd, hx⟩

/-- Membership in one inner staleness query (no domain scope): exactly the
urls of scans having some pattern-score row for the queried pattern id with
a version below the current one. -/
theorem mem_query_stale (db : Db) (pattern_id : String)
    (current_version : ℤ) (u : String) :
    u ∈ Db.query_stale db pattern_id current_version none ↔
      ∃ s ∈ db.scans, s.url = some u ∧
        ∃ ps ∈ db.pattern_scores, ps.scan_id = s.id ∧
          ps.pattern_id = pattern_id ∧
          ps.pattern_version < current_version := by
  unfold Db.query_stale
  simp only [List.mem_filterMap, List.mem_filter, Bool.and_eq_true,
    List.any_eq_true, decide_eq_true_eq]
  constructor
  · rintro ⟨s, ⟨hmem, ⟨-, -⟩, ps, hps, ⟨h1, h2⟩, h3⟩, hurl⟩
    exact ⟨s, hmem, hurl, ps, hps, h1, h2, h3⟩
  · rintro ⟨s, hmem, hurl, ps, hps, h1, h2, h3⟩
    exact ⟨s, ⟨hmem, ⟨by simp [hurl], trivial⟩, ps, hps, ⟨h1, h2⟩, h3⟩, hurl⟩

/-- C10: the staleness query never reports a document stored without a url
— deleting all null-url scans from the database leaves its result
unchanged, for every currently-loaded version map and domain scope. -/
theorem get_stale_urls_ignores_null_url_scans (db : Db)
    (current_versions : List (String × ℤ)) (domain : Option String) :
    get_stale_urls db current_versions domain =
      get_stale_urls
        { scans := db.scans.filter (fun s => s.url.isSome),
          pattern_scores := db.pattern_scores }
        current_versions domain := by
  have hq : ∀ (pid : String) (cur : ℤ),
      Db.query_stale
        { scans := db.scans.filter (fun s => s.url.isSome),
          pattern_scores := db.pattern_scores } pid cur domain =
      Db.query_stale db pid cur domain := by
    intro pid cur
    unfold Db.query_stale
    rw [List.filter_filter]
    congr 1
    apply List.filter_congr
    intro s _
    cases hsome : s.url.isSome <;> simp [hsome]
  simp only [get_stale_urls, hq]

/-- The versions stored for one (document, pattern id) key. -/
def storedVersions (db : Db) (sid : ℕ) (pid : String) : List ℤ :=
  (db.pattern_scores.filter
    (fun ps => ps.scan_id = sid && ps.pattern_id = pid)).map
    (fun ps => ps.pattern_version)

/-- A well-formed stored corpus holds at most one `pattern_scores` row per
(scan, pattern id) key — `store_result` guarantees this by deleting a
scan's rows and inserting exactly one row per (id-unique) pattern result. -/
def Db.rowKeyUnique (db : Db) : Prop :=
  db.pattern_scores.Pairwise
    (fun a b => ¬(a.scan_id = b.scan_id ∧ a.pattern_id = b.pattern_id))

/-- A pairwise key-distinct row list keeps at most one row per key. -/
theorem filter_key_length_le_one (l : List PatternScoreRow)
    (hu : l.Pairwise
      (fun a b => ¬(a.scan_id = b.scan_id ∧ a.pattern_id = b.pattern_id)))
    (sid : ℕ) (pid : String) :
    (l.filter
      (fun ps => ps.scan_id = sid && ps.pattern_id = pid)).length ≤ 1 := by
  induction hu with
  | nil => simp
  | cons ha _ ih =>
    rename_i a rest _
    by_cases hk : (a.scan_id = sid ∧ a.pattern_id = pid)
    · have hnone : rest.filter
          (fun ps => ps.scan_id = sid && ps.pattern_id = pid) = [] := by
        rw [List.filter_eq_nil_iff]
        intro b hb
        simp only [Bool.and_eq_true, decide_eq_true_eq]
        rintro ⟨hb1, hb2⟩
        exact ha b hb ⟨hk.1.trans hb1.symm, hk.2.trans hb2.symm⟩
      simp [List.filter_cons, hk.1, hk.2, hnone]
    · have hk' : (decide (a.scan_id = sid) && decide (a.pattern_id = pid)) = false := by
        rcases Decidable.not_and_iff_or_not.mp hk with h | h <;> simp [h]
      simp only [List.filter_cons, hk']
      exact ih

/-- Under key uniqueness, each key's version list has at most one entry. -/
theorem storedVersions_length_le_one (db : Db) (hu : db.rowKeyUnique)
    (sid : ℕ) (pid : String) :
    (storedVersions db sid pid).length ≤ 1 := by
  unfold storedVersions
  rw [List.length_map]
  exact filter_key_length_le_one db.pattern_scores hu sid pid
  
/-- Under key uniqueness, "some row for this key is below the current
version" is the same as "the key's stored maximum version is below the
current version". -/
theorem exists_row_lt_iff_max_lt (db : Db) (hu : db.rowKeyUnique)
    (sid : ℕ) (pid : String) (cur : ℤ) :
    (∃ ps ∈ db.pattern_scores, ps.scan_id = sid ∧ ps.pattern_id = pid ∧
        ps.pattern_version < cur) ↔
      ∃ m : ℤ, (storedVersions db sid pid).max? = some m ∧ m < cur := by
  have hlen := storedVersions_length_le_one db hu sid pid
  constructor
  · rintro ⟨ps, hps, h1, h2, h3⟩
    have hv : ps.pattern_version ∈ storedVersions db sid pid := by
      unfold storedVersions
      exact List.mem_map_of_mem _
        (List.mem_filter.mpr ⟨hps, by simp [h1, h2]⟩)
    match he : storedVersions db sid pid with
    | [] => rw [he] at hv; cases hv
    | [v] =>
      rw [he] at hv
      rcases List.mem_singleton.mp hv with rfl
      exact ⟨ps.pattern_version, by simp [List.max?], h3⟩
    | v₁ :: v₂ :: t => rw [he] at hlen; simp at hlen
  · rintro ⟨m, hmax, hlt⟩
    have hm : m ∈ storedVersions db sid pid :=
      List.max?_mem (fun a b => max_choice a b) hmax
    unfold storedVersions at hm
    rcases List.mem_map.mp hm with ⟨ps, hpsf, hv⟩
    rcases List.mem_filter.mp hpsf with ⟨hps, hkey⟩
    simp only [Bool.and_eq_true, decide_eq_true_eq] at hkey
    exact ⟨ps, hps, hkey.1, hkey.2, by rw [hv]; exact hlt⟩

/-- C7: for every well-formed stored corpus and currently loaded
`{patternId → version}` map, `get_stale_urls` returns exactly the urls of
previously analyzed documents for which some pattern id's stored maximum
version is strictly below the currently loaded version for that id. -/
theorem get_stale_urls_exactly_outdated (db : Db)
    (current_versions : List (String × ℤ)) (hu : db.rowKeyUnique)
    (u : String) :
    u ∈ get_stale_urls db current_versions none ↔
      ∃ s ∈ db.scans, s.url = some u ∧
        ∃ pc ∈ current_versions, ∃ m : ℤ,
          (storedVersions db s.id pc.1).max? = some m ∧ m < pc.2 := by
  unfold get_stale_urls
  rw [(List.perm_insertionSort _ _).mem_iff, List.mem_dedup,
    mem_foldl_append]
  simp only [List.not_mem_nil, false_or]
  constructor
  · rintro ⟨pc, hpc, hq⟩
    rcases (mem_query_stale db pc.1 pc.2 u).mp hq with ⟨s, hs, hurl, hrow⟩
    refine ⟨s, hs, hurl, pc, hpc, ?_⟩
    exact (exists_row_lt_iff_max_lt db hu s.id pc.1 pc.2).mp hrow
  · rintro ⟨s, hs, hurl, pc, hpc, hmax⟩
    refine ⟨pc, hpc, (mem_query_stale db pc.1 pc.2 u).mpr ?_⟩
    exact ⟨s, hs, hurl,
      (exists_row_lt_iff_max_lt db hu s.id pc.1 pc.2).mpr hmax⟩

/-- The two-document corpus of the spec's staleness example: document A's
result for pattern P was stored at version 1, document B's at version 2. -/
def dbStale : Db :=
  { scans :=
      [{ id := 1, url := some "https://a.example/post" },
       { id := 2, url := some "https://b.example/post" }],
    pattern_scores :=
      [{ scan_id := 1, pattern_id := "P", pattern_version := 1 },
       { scan_id := 2, pattern_id := "P", pattern_version := 2 }] }

/-- Witness for C7: with current version 2 for pattern P, document A
(stored at version 1) is in the stale set and document B (stored at
version 2) is not. -/
theorem get_stale_urls_exactly_outdated_witness :
    "https://a.example/post" ∈ get_stale_urls dbStale [("P", 2)] none ∧
    "https://b.example/post" ∉ get_stale_urls dbStale [("P", 2)] none := by
  have hu : dbStale.rowKeyUnique := by
    unfold Db.rowKeyUnique dbStale
    refine List.Pairwise.cons (fun b hb => ?_) ?_
    · rcases List.mem_singleton.mp hb with rfl
      rintro ⟨h, -⟩
      simp at h
    · exact List.pairwise_singleton _ _
  constructor
  · refine (get_stale_urls_exactly_outdated dbStale [("P", 2)] hu _).mpr ?_
    refine ⟨{ id := 1, url := some "https://a.example/post" },
      by simp [dbStale], rfl, ("P", 2), by simp, 1, ?_, by norm_num⟩
    decide
  · intro hmem
    rcases (get_stale_urls_exactly_outdated dbStale [("P", 2)] hu _).mp hmem
      with ⟨s, hs, hurl, pc, hpc, m, hmax, hlt⟩
    simp only [dbStale, List.mem_cons, List.mem_singleton,
      List.not_mem_nil, or_false] at hs hpc
    subst hpc
    rcases hs with rfl | rfl
    · simp at hurl
    · have h2 : (storedVersions dbStale 2 "P").max? = some 2 := by decide
      rw [h2] at hmax
      rcases Option.some_inj.mp hmax with rfl
      exact absurd hlt (by norm_num)
